import Mathlib

/-!
Shallow embedding of `src/wasm/src/lib.rs` (sysmon-code): a system monitor
that samples CPU utilization, memory usage and a thermal sensor reading,
formats them into display strings, and exposes `init` / `get_sys_stats`
through a process-wide singleton slot.

The opaque OS handle (`sysinfo::System` / `sysinfo::Components`) is modelled
by an `Env` record supplying the readings a refresh call would observe:
`global_cpu_usage()`, `total_memory()`, `used_memory()` and the list of
temperatures of the enumerated thermal components.  Float values (`f32`/`f64`)
are modelled as rationals; Rust's `{:.2}` fixed-point formatting is modelled
by `fmt2`, which rounds to hundredths and renders sign, decimal integer part,
a dot and exactly two digits.
-/

/-- User configuration (Rust `struct Config`): `update_interval: u64` and
`use_icons: bool`. -/
structure Config where
  update_interval : Nat
  use_icons : Bool
  deriving Repr, DecidableEq

/-- Rust `impl Default for Config`: interval 2000 ms, text labels. -/
def Config.default : Config :=
  { update_interval := 2000, use_icons := false }

/-- The readings the OS metrics subsystem reports to one refresh call:
`global_cpu_usage()`, `total_memory()`, `used_memory()` (native units, as
`f64`), and the temperatures of the thermal components that
`Components::new_with_refreshed_list()` enumerates, in enumeration order. -/
structure Env where
  cpuUsage : ℚ
  totalMem : ℚ
  usedMem : ℚ
  components : List ℚ
  deriving Repr, DecidableEq

/-- Monitor state (Rust `struct SysMonState`): the configuration and the three
most recently rendered display strings.  The opaque `sys: System` handle is
not part of the model; its readings come from `Env`. -/
structure SysMonState where
  config : Config
  cpu : String
  mem : String
  temp : String
  deriving Repr, DecidableEq

/-- Rust `const ICONS: (&str, &str, &str)`: the three Nerd-Font glyphs
U+F4BC, U+EFC5, U+F2CA used when `use_icons` is true. -/
def ICONS : String × String × String := ("", "", "")

/-- Model of Rust's `{:.2}` fixed-point formatting of a finite float value:
round to hundredths, then render optional sign, the integer part in decimal
(`Nat.repr`, the decimal digits Rust's `{}` would print), a dot, and exactly
two digits. -/
def fmt2 (q : ℚ) : String :=
  let c : ℤ := ⌊q * 100 + 1 / 2⌋
  (if c < 0 then "-" else "") ++ Nat.repr (c.natAbs / 100) ++ "." ++
    ⟨[Nat.digitChar (c.natAbs / 10 % 10), Nat.digitChar (c.natAbs % 10)]⟩

/-- `format!("{} {:.2}%", ICONS.0, cpu)` / `format!("CPU: {:.2}%", cpu)`. -/
def renderCpu (use_icons : Bool) (cpu : ℚ) : String :=
  if use_icons then ICONS.1 ++ " " ++ fmt2 cpu ++ "%"
  else "CPU: " ++ fmt2 cpu ++ "%"

/-- `format!("{} {:.2}/{:.2} GB", ICONS.1, used_mem, total_mem)` /
`format!("Mem: {:.2}/{:.2} GB", used_mem, total_mem)`. -/
def renderMem (use_icons : Bool) (used_mem total_mem : ℚ) : String :=
  if use_icons then ICONS.2.1 ++ " " ++ fmt2 used_mem ++ "/" ++ fmt2 total_mem ++ " GB"
  else "Mem: " ++ fmt2 used_mem ++ "/" ++ fmt2 total_mem ++ " GB"

/-- `format!("{} {:.2}°C", ICONS.2, temp)` / `format!("Temp: {:.2}°C", temp)`. -/
def renderTemp (use_icons : Bool) (temp : ℚ) : String :=
  if use_icons then ICONS.2.2 ++ " " ++ fmt2 temp ++ "°C"
  else "Temp: " ++ fmt2 temp ++ "°C"

/-- `SysMonState::new`: stores the configuration and initializes the three
text fields to empty strings (the eager `sys.refresh_all()` only warms the
opaque handle and renders nothing). -/
def SysMonState.new (config : Config) : SysMonState :=
  { config := config, cpu := "", mem := "", temp := "" }

/-- `SysMonState::update_cpu_usage`: refresh CPU, read the global usage and
overwrite `self.cpu` with the rendered string. -/
def update_cpu_usage (e : Env) (s : SysMonState) : SysMonState :=
  { s with cpu := renderCpu s.config.use_icons e.cpuUsage }

/-- `SysMonState::update_mem_usage`: refresh memory, divide
`total_memory()` and `used_memory()` by `1024.0` (once), and overwrite
`self.mem` with the rendered string. -/
def update_mem_usage (e : Env) (s : SysMonState) : SysMonState :=
  let total_mem := e.totalMem / 1024
  let used_mem := e.usedMem / 1024
  { s with mem := renderMem s.config.use_icons used_mem total_mem }

/-- `SysMonState::update_temp`: enumerate thermal components afresh; if a
first component exists, overwrite `self.temp` with its rendered temperature,
otherwise leave the state untouched. -/
def update_temp (e : Env) (s : SysMonState) : SysMonState :=
  match e.components.head? with
  | some component => { s with temp := renderTemp s.config.use_icons component }
  | none => s

/-- `SysMonState::update_all`: CPU, then memory, then temperature. -/
def update_all (e : Env) (s : SysMonState) : SysMonState :=
  update_temp e (update_mem_usage e (update_cpu_usage e s))

/-- The singleton slot `SYSMON_STATE`: at most one monitor. -/
abbrev Slot : Type := Option SysMonState

/-- `init(update_interval, use_icons)`: builds a `Config`, constructs a fresh
`SysMonState` and stores it in the slot, discarding whatever was there. -/
def init (update_interval : Nat) (use_icons : Bool) (_slot : Slot) : Slot :=
  some (SysMonState.new { update_interval := update_interval, use_icons := use_icons })

/-- `get_sys_stats()`: if the slot holds a monitor, run `update_all` and
return the three text fields joined with `" | "` together with the updated
slot; otherwise fail with the fixed error string and leave the slot as it
was. -/
def get_sys_stats (e : Env) (slot : Slot) : Except String String × Slot :=
  match slot with
  | some state =>
      let state := update_all e state
      (Except.ok (state.cpu ++ " | " ++ state.mem ++ " | " ++ state.temp), some state)
  | none => (Except.error "System monitor not initialized", slot)

/-- The slot after a sequence of `get_sys_stats` calls, one per environment
in the list. -/
def runSamples (envs : List Env) (slot : Slot) : Slot :=
  match envs with
  | [] => slot
  | e :: rest => runSamples rest (get_sys_stats e slot).2

/-- The outputs of a sequence of `get_sys_stats` calls, one per environment
in the list. -/
def runOutputs (envs : List Env) (slot : Slot) : List (Except String String) :=
  match envs with
  | [] => []
  | e :: rest => (get_sys_stats e slot).1 :: runOutputs rest (get_sys_stats e slot).2

/-- Number of start positions at which the pattern `p` occurs in `l`. -/
def countSubstr (p : List Char) : List Char → Nat
  | [] => 0
  | c :: rest => (if p.isPrefixOf (c :: rest) then 1 else 0) + countSubstr p rest

/-- The character list of the separator `" | "`. -/
def sepChars : List Char := [' ', '|', ' ']

/-- Whether the character `c` occurs in the list. -/
def hasChar (c : Char) : List Char → Bool
  | [] => false
  | b :: bs => c == b || hasChar c bs

/-- Whether the list `l` begins with the pattern `p`. -/
def beginsWith : List Char → List Char → Bool
  | [], _ => true
  | _ :: _, [] => false
  | p :: ps, c :: cs => p == c && beginsWith ps cs

/-- A string that renders a value to exactly two decimal places: it splits as
an integer part containing no dot, a dot, and exactly two digit characters. -/
def TwoDecimals (x : String) : Prop :=
  ∃ a d1 d2, x = a ++ "." ++ String.mk [d1, d2] ∧ hasChar '.' a.data = false ∧
    d1.isDigit = true ∧ d2.isDigit = true

example : countSubstr sepChars "a | b | ".data = 2 := by decide
example : beginsWith "CPU: ".data "CPU: 3.14%".data = true := by decide
example : hasChar '|' "Mem: 1.00/2.00 GB".data = false := by decide

/-! ### Helper lemmas about characters and strings -/

lemma hasChar_append (c : Char) (l1 l2 : List Char) :
    hasChar c (l1 ++ l2) = (hasChar c l1 || hasChar c l2) := by
  induction l1 with
  | nil => simp [hasChar]
  | cons b bs ih => simp [hasChar, ih, Bool.or_assoc]

lemma hasChar_eq_true_iff (c : Char) (l : List Char) : hasChar c l = true ↔ c ∈ l := by
  induction l with
  | nil => simp [hasChar]
  | cons b bs ih => simp [hasChar, ih]

lemma hasChar_cons_false {c b : Char} {bs : List Char} (h : hasChar c (b :: bs) = false) :
    (c == b) = false ∧ hasChar c bs = false := by
  rw [hasChar, Bool.or_eq_false_iff] at h
  exact h

lemma beginsWith_of_append (p rest : List Char) : beginsWith p (p ++ rest) = true := by
  induction p with
  | nil => simp [beginsWith]
  | cons c cs ih => simp [beginsWith, ih]

lemma beginsWith_cons_false {p c : Char} (ps cs : List Char) (h : (p == c) = false) :
    beginsWith (p :: ps) (c :: cs) = false := by
  simp [beginsWith, h]

lemma digitChar_isDigit : ∀ k, k < 10 → (Nat.digitChar k).isDigit = true := by decide

lemma mem_toDigitsCore (fuel : Nat) : ∀ (n : Nat) (ds : List Char) (ch : Char),
    ch ∈ Nat.toDigitsCore 10 fuel n ds → ch ∈ ds ∨ ∃ k, k < 10 ∧ ch = Nat.digitChar k := by
  induction fuel with
  | zero => intro n ds ch h; exact Or.inl h
  | succ fuel ih =>
    intro n ds ch h
    rw [Nat.toDigitsCore] at h
    have hmod : n % 10 < 10 := Nat.mod_lt _ (by decide)
    by_cases h0 : n / 10 = 0
    · rw [if_pos h0] at h
      rcases List.mem_cons.mp h with h1 | h1
      · exact Or.inr ⟨n % 10, hmod, h1⟩
      · exact Or.inl h1
    · rw [if_neg h0] at h
      rcases ih _ _ _ h with h1 | h1
      · rcases List.mem_cons.mp h1 with h2 | h2
        · exact Or.inr ⟨n % 10, hmod, h2⟩
        · exact Or.inl h2
      · exact Or.inr h1

lemma mem_repr_digit (n : Nat) (ch : Char) (h : ch ∈ (Nat.repr n).data) :
    ∃ k, k < 10 ∧ ch = Nat.digitChar k := by
  have hd : (Nat.repr n).data = Nat.toDigitsCore 10 (n + 1) n [] := rfl
  rw [hd] at h
  rcases mem_toDigitsCore _ _ _ _ h with h1 | h1
  · simp at h1
  · exact h1

lemma hasChar_repr_false (n : Nat) (c : Char)
    (hc : ∀ k, k < 10 → (Nat.digitChar k == c) = false) :
    hasChar c (Nat.repr n).data = false := by
  cases h : hasChar c (Nat.repr n).data with
  | false => rfl
  | true =>
    exfalso
    rcases mem_repr_digit n c (hasChar_eq_true_iff c _ |>.mp h) with ⟨k, hk, rfl⟩
    have := hc k hk
    simp at this

/-! ### Structure of `fmt2` and the rendered segments -/

lemma fmt2_eq (q : ℚ) :
    fmt2 q = ((if (⌊q * 100 + 1 / 2⌋ : ℤ) < 0 then "-" else "") ++
        Nat.repr ((⌊q * 100 + 1 / 2⌋ : ℤ).natAbs / 100)) ++ "." ++
      String.mk [Nat.digitChar ((⌊q * 100 + 1 / 2⌋ : ℤ).natAbs / 10 % 10),
        Nat.digitChar ((⌊q * 100 + 1 / 2⌋ : ℤ).natAbs % 10)] := rfl

lemma twoDecimals_fmt2 (q : ℚ) : TwoDecimals (fmt2 q) := by
  refine ⟨(if (⌊q * 100 + 1 / 2⌋ : ℤ) < 0 then "-" else "") ++
      Nat.repr ((⌊q * 100 + 1 / 2⌋ : ℤ).natAbs / 100), _, _, fmt2_eq q, ?_, ?_, ?_⟩
  · rw [String.data_append, hasChar_append]
    have h1 : hasChar '.' (if (⌊q * 100 + 1 / 2⌋ : ℤ) < 0 then "-" else "").data = false := by
      split <;> decide
    have h2 : hasChar '.' (Nat.repr ((⌊q * 100 + 1 / 2⌋ : ℤ).natAbs / 100)).data = false :=
      hasChar_repr_false _ _ (by decide)
    rw [h1, h2]
    rfl
  · exact digitChar_isDigit _ (Nat.mod_lt _ (by decide))
  · exact digitChar_isDigit _ (Nat.mod_lt _ (by decide))

lemma hasChar_fmt2_false (q : ℚ) (c : Char) (hdot : (c == '.') = false)
    (hdash : (c == '-') = false) (hd : ∀ k, k < 10 → (Nat.digitChar k == c) = false) :
    hasChar c (fmt2 q).data = false := by
  rw [fmt2_eq, String.data_append, String.data_append, hasChar_append, hasChar_append,
    String.data_append, hasChar_append]
  have h1 : hasChar c (if (⌊q * 100 + 1 / 2⌋ : ℤ) < 0 then "-" else "").data = false := by
    split
    · show (c == '-' || false) = false
      rw [hdash]
      rfl
    · rfl
  have h2 : hasChar c (Nat.repr ((⌊q * 100 + 1 / 2⌋ : ℤ).natAbs / 100)).data = false :=
    hasChar_repr_false _ _ hd
  have h3 : hasChar c ".".data = false := by
    show (c == '.' || false) = false
    rw [hdot]
    rfl
  have h4 : hasChar c (String.mk [Nat.digitChar ((⌊q * 100 + 1 / 2⌋ : ℤ).natAbs / 10 % 10),
      Nat.digitChar ((⌊q * 100 + 1 / 2⌋ : ℤ).natAbs % 10)]).data = false := by
    show (c == _ || (c == _ || false)) = false
    have e1 := hd _ (Nat.mod_lt ((⌊q * 100 + 1 / 2⌋ : ℤ).natAbs / 10) (by decide))
    have e2 := hd _ (Nat.mod_lt (⌊q * 100 + 1 / 2⌋ : ℤ).natAbs (by decide))
    rw [BEq.comm] at e1 e2
    rw [e1, e2]
    rfl
  rw [h1, h2, h3, h4]
  rfl

lemma pipe_fmt2 (q : ℚ) : hasChar '|' (fmt2 q).data = false :=
  hasChar_fmt2_false q '|' (by decide) (by decide) (by decide)

lemma renderCpu_eq (b : Bool) (v : ℚ) :
    renderCpu b v = (if b then ICONS.1 ++ " " else "CPU: ") ++ (fmt2 v ++ "%") := by
  cases b <;> simp [renderCpu, String.append_assoc]

lemma renderMem_eq (b : Bool) (u t : ℚ) :
    renderMem b u t = (if b then ICONS.2.1 ++ " " else "Mem: ") ++
      (fmt2 u ++ "/" ++ fmt2 t ++ " GB") := by
  cases b <;> simp [renderMem, String.append_assoc]

lemma renderTemp_eq (b : Bool) (v : ℚ) :
    renderTemp b v = (if b then ICONS.2.2 ++ " " else "Temp: ") ++ (fmt2 v ++ "°C") := by
  cases b <;> simp [renderTemp, String.append_assoc]

lemma pipe_renderCpu (b : Bool) (v : ℚ) : hasChar '|' (renderCpu b v).data = false := by
  rw [renderCpu_eq, String.data_append, hasChar_append, String.data_append, hasChar_append,
    pipe_fmt2]
  cases b <;> decide

lemma pipe_renderMem (b : Bool) (u t : ℚ) : hasChar '|' (renderMem b u t).data = false := by
  rw [renderMem_eq, String.data_append, hasChar_append, String.data_append, hasChar_append,
    String.data_append, hasChar_append, String.data_append, hasChar_append, pipe_fmt2, pipe_fmt2]
  cases b <;> decide

lemma pipe_renderTemp (b : Bool) (v : ℚ) : hasChar '|' (renderTemp b v).data = false := by
  rw [renderTemp_eq, String.data_append, hasChar_append, String.data_append, hasChar_append,
    pipe_fmt2]
  cases b <;> decide

/-! ### The refresh step and the singleton state machine -/

/-- `tempText` is either still the initial empty string or the rendering of
some temperature under the monitor's own presentation mode. -/
def TempOK (b : Bool) (t : String) : Prop :=
  t = "" ∨ ∃ v, t = renderTemp b v

lemma update_all_eq (e : Env) (s : SysMonState) :
    update_all e s =
      { config := s.config,
        cpu := renderCpu s.config.use_icons e.cpuUsage,
        mem := renderMem s.config.use_icons (e.usedMem / 1024) (e.totalMem / 1024),
        temp := match e.components.head? with
                | some v => renderTemp s.config.use_icons v
                | none => s.temp } := by
  cases h : e.components.head? <;>
    simp [update_all, update_temp, update_cpu_usage, update_mem_usage, h]

lemma tempOK_update_all (e : Env) (s : SysMonState) (h : TempOK s.config.use_icons s.temp) :
    TempOK s.config.use_icons (update_all e s).temp := by
  rw [update_all_eq]
  cases he : e.components.head? with
  | some v => exact Or.inr ⟨v, rfl⟩
  | none => exact h

lemma get_sys_stats_some (e : Env) (s : SysMonState) :
    get_sys_stats e (some s) =
      (Except.ok ((update_all e s).cpu ++ " | " ++ (update_all e s).mem ++ " | " ++
        (update_all e s).temp), some (update_all e s)) := rfl

lemma runSamples_inv (envs : List Env) : ∀ s : SysMonState,
    TempOK s.config.use_icons s.temp →
    ∃ s2, runSamples envs (some s) = some s2 ∧ s2.config = s.config ∧
      TempOK s.config.use_icons s2.temp := by
  induction envs with
  | nil => intro s h; exact ⟨s, rfl, rfl, h⟩
  | cons e rest ih =>
    intro s h
    have hstep : (get_sys_stats e (some s)).2 = some (update_all e s) := rfl
    have hc : (update_all e s).config = s.config := by rw [update_all_eq]
    rcases ih (update_all e s) (by rw [hc]; exact tempOK_update_all e s h) with
      ⟨s2, h1, h2, h3⟩
    refine ⟨s2, ?_, ?_, ?_⟩
    · rw [runSamples, hstep]; exact h1
    · rw [h2, hc]
    · rw [hc] at h3; exact h3

/-! ### Counting occurrences of the separator -/

lemma countSubstr_sep_zero (l : List Char) (h : hasChar '|' l = false) :
    countSubstr sepChars l = 0 := by
  induction l with
  | nil => rfl
  | cons c cs ih =>
    obtain ⟨hc, hcs⟩ := hasChar_cons_false h
    rw [countSubstr]
    have hpf : sepChars.isPrefixOf (c :: cs) = false := by
      cases cs with
      | nil => simp [sepChars, List.isPrefixOf]
      | cons c2 cs2 =>
        obtain ⟨hc2, _⟩ := hasChar_cons_false hcs
        simp [sepChars, List.isPrefixOf, hc2]
    rw [hpf, ih hcs]
    simp

lemma countSubstr_sep_append (a l : List Char) (ha : hasChar '|' a = false)
    (hl : l.head? ≠ some '|') :
    countSubstr sepChars (a ++ l) = countSubstr sepChars l := by
  induction a with
  | nil => simp
  | cons c cs ih =>
    obtain ⟨hc, hcs⟩ := hasChar_cons_false ha
    rw [List.cons_append, countSubstr]
    have hpf : sepChars.isPrefixOf (c :: (cs ++ l)) = false := by
      cases cs with
      | nil =>
        cases l with
        | nil => simp [sepChars, List.isPrefixOf]
        | cons x xs =>
          simp only [List.head?] at hl
          have hx : ('|' == x) = false := by
            rw [beq_eq_false_iff_ne]
            intro h
            exact hl (by rw [h])
          simp [sepChars, List.isPrefixOf, hx]
      | cons c2 cs2 =>
        obtain ⟨hc2, _⟩ := hasChar_cons_false hcs
        simp [sepChars, List.isPrefixOf, hc2]
    rw [hpf, ih hcs]
    simp

lemma countSubstr_sep_two (cL mL tL : List Char) (hc : hasChar '|' cL = false)
    (hm : hasChar '|' mL = false) (ht : hasChar '|' tL = false) :
    countSubstr sepChars (cL ++ (sepChars ++ (mL ++ (sepChars ++ tL)))) = 2 := by
  have hhead : (sepChars ++ (mL ++ (sepChars ++ tL))).head? ≠ some '|' := by
    simp [sepChars]
  rw [countSubstr_sep_append _ _ hc hhead]
  show countSubstr sepChars (' ' :: '|' :: ' ' :: (mL ++ (sepChars ++ tL))) = 2
  rw [countSubstr, countSubstr, countSubstr]
  have h1 : sepChars.isPrefixOf (' ' :: '|' :: ' ' :: (mL ++ (sepChars ++ tL))) = true := by
    simp [sepChars, List.isPrefixOf]
  have h2 : sepChars.isPrefixOf ('|' :: ' ' :: (mL ++ (sepChars ++ tL))) = false := by
    simp [sepChars, List.isPrefixOf]
  have h3 : sepChars.isPrefixOf (' ' :: (mL ++ (sepChars ++ tL))) = false := by
    cases mL with
    | nil => simp [sepChars, List.isPrefixOf]
    | cons x xs =>
      obtain ⟨hx, _⟩ := hasChar_cons_false hm
      simp [sepChars, List.isPrefixOf, hx]
  rw [h1, h2, h3]
  have h4 : (sepChars ++ tL).head? ≠ some '|' := by simp [sepChars]
  rw [countSubstr_sep_append _ _ hm h4]
  show 1 + (0 + (0 + countSubstr sepChars (' ' :: '|' :: ' ' :: tL))) = 2
  rw [countSubstr, countSubstr, countSubstr]
  have h5 : sepChars.isPrefixOf (' ' :: '|' :: ' ' :: tL) = true := by
    simp [sepChars, List.isPrefixOf]
  have h6 : sepChars.isPrefixOf ('|' :: ' ' :: tL) = false := by
    simp [sepChars, List.isPrefixOf]
  have h7 : sepChars.isPrefixOf (' ' :: tL) = false := by
    cases tL with
    | nil => simp [sepChars, List.isPrefixOf]
    | cons y ys =>
      obtain ⟨hy, _⟩ := hasChar_cons_false ht
      simp [sepChars, List.isPrefixOf, hy]
  rw [h5, h6, h7, countSubstr_sep_zero tL ht]
  simp

lemma countSubstr_join_strings (c m t : String) (hc : hasChar '|' c.data = false)
    (hm : hasChar '|' m.data = false) (ht : hasChar '|' t.data = false) :
    countSubstr sepChars (c ++ " | " ++ m ++ " | " ++ t).data = 2 := by
  have hsep : " | ".data = sepChars := rfl
  have hd : (c ++ " | " ++ m ++ " | " ++ t).data
      = c.data ++ (sepChars ++ (m.data ++ (sepChars ++ t.data))) := by
    rw [String.data_append, String.data_append, String.data_append, String.data_append, hsep,
      List.append_assoc, List.append_assoc, List.append_assoc]
  rw [hd]
  exact countSubstr_sep_two _ _ _ hc hm ht

lemma update_all_cpu (e : Env) (s : SysMonState) :
    (update_all e s).cpu = renderCpu s.config.use_icons e.cpuUsage := by
  rw [update_all_eq]

lemma update_all_mem (e : Env) (s : SysMonState) :
    (update_all e s).mem = renderMem s.config.use_icons (e.usedMem / 1024) (e.totalMem / 1024) := by
  rw [update_all_eq]

lemma update_all_temp (e : Env) (s : SysMonState) :
    (update_all e s).temp = match e.components.head? with
      | some v => renderTemp s.config.use_icons v
      | none => s.temp := by
  rw [update_all_eq]

lemma update_all_config (e : Env) (s : SysMonState) :
    (update_all e s).config = s.config := by
  rw [update_all_eq]

lemma pipe_tempOK {b : Bool} {t : String} (h : TempOK b t) : hasChar '|' t.data = false := by
  rcases h with rfl | ⟨v, rfl⟩
  · rfl
  · exact pipe_renderTemp _ _

/-! ### Claim theorems -/

/-- C2: calling `get_sys_stats` while the singleton slot is still uninitialized
fails with exactly the error string "System monitor not initialized", performs
no refresh, and leaves the slot unchanged. -/
theorem sample_before_init_fails (e : Env) :
    get_sys_stats e none = (Except.error "System monitor not initialized", none) := rfl

/-- C5: `update_cpu_usage` renders the CPU percentage as prefix, the
`{:.2}`-formatted value, and a percent sign, and the formatted value always has
exactly two decimal places, whatever the reading and the icon mode. -/
theorem cpu_two_decimal_places (e : Env) (s : SysMonState) :
    (update_cpu_usage e s).cpu =
      (if s.config.use_icons then ICONS.1 ++ " " else "CPU: ") ++ (fmt2 e.cpuUsage ++ "%") ∧
    TwoDecimals (fmt2 e.cpuUsage) :=
  ⟨renderCpu_eq _ _, twoDecimals_fmt2 _⟩

/-- C7: `update_all` runs the CPU refresh, then the memory refresh, then the
temperature refresh, in that exact order, and `get_sys_stats` joins the three
text fields with " | " in the fixed order CPU, memory, temperature. -/
theorem update_order_and_join (e : Env) (s : SysMonState) :
    update_all e s = update_temp e (update_mem_usage e (update_cpu_usage e s)) ∧
    get_sys_stats e (some s) =
      (Except.ok ((update_all e s).cpu ++ " | " ++ (update_all e s).mem ++ " | " ++
        (update_all e s).temp), some (update_all e s)) :=
  ⟨rfl, rfl⟩

/-- C6: when thermal enumeration yields zero components, `update_temp` is a
no-op, and two consecutive `get_sys_stats` calls that both see zero components
keep the temperature segment identical (the previous `temp` value, including
the initial empty string). -/
theorem temp_noop_on_empty_components (s : SysMonState) (c1 t1 u1 c2 t2 u2 : ℚ) :
    update_temp (Env.mk c1 t1 u1 []) s = s ∧
    (update_all (Env.mk c1 t1 u1 []) s).temp = s.temp ∧
    (update_all (Env.mk c2 t2 u2 []) (update_all (Env.mk c1 t1 u1 []) s)).temp = s.temp ∧
    (get_sys_stats (Env.mk c1 t1 u1 []) (some s)).1 =
      Except.ok ((update_all (Env.mk c1 t1 u1 []) s).cpu ++ " | " ++
        (update_all (Env.mk c1 t1 u1 []) s).mem ++ " | " ++ s.temp) ∧
    (get_sys_stats (Env.mk c2 t2 u2 []) ((get_sys_stats (Env.mk c1 t1 u1 []) (some s)).2)).1 =
      Except.ok ((update_all (Env.mk c2 t2 u2 []) (update_all (Env.mk c1 t1 u1 []) s)).cpu
        ++ " | " ++ (update_all (Env.mk c2 t2 u2 []) (update_all (Env.mk c1 t1 u1 []) s)).mem
        ++ " | " ++ s.temp) :=
  ⟨rfl, rfl, rfl, rfl, rfl⟩

/-- C3: after a successful `init`, every subsequent `get_sys_stats` call (any
number of samples later) succeeds, and the returned string contains exactly
two occurrences of the separator " | ". -/
theorem sample_after_init_two_separators (intv : Nat) (icons : Bool)
    (envs : List Env) (e : Env) :
    ∃ s r, runSamples envs (init intv icons none) = some s ∧
      (get_sys_stats e (some s)).1 = Except.ok r ∧
      countSubstr sepChars r.data = 2 := by
  obtain ⟨s2, hrun, hcfg, htemp⟩ :=
    runSamples_inv envs (SysMonState.new ⟨intv, icons⟩) (Or.inl rfl)
  refine ⟨s2, (update_all e s2).cpu ++ " | " ++ (update_all e s2).mem ++ " | " ++
    (update_all e s2).temp, hrun, rfl, ?_⟩
  have hcpu : hasChar '|' (update_all e s2).cpu.data = false := by
    rw [update_all_cpu]
    exact pipe_renderCpu _ _
  have hmem : hasChar '|' (update_all e s2).mem.data = false := by
    rw [update_all_mem]
    exact pipe_renderMem _ _ _
  have htmp : hasChar '|' (update_all e s2).temp.data = false := by
    rw [update_all_temp]
    cases hh : e.components.head? with
    | some v => exact pipe_renderTemp _ _
    | none => exact pipe_tempOK htemp
  exact countSubstr_join_strings _ _ _ hcpu hmem htmp

lemma beginsWith_string_append (p r : String) : beginsWith p.data (p ++ r).data = true := by
  rw [String.data_append]
  exact beginsWith_of_append _ _

lemma textLabel_cpu (v : ℚ) : beginsWith "CPU: ".data (renderCpu false v).data = true := by
  rw [show renderCpu false v = "CPU: " ++ (fmt2 v ++ "%") from renderCpu_eq false v]
  exact beginsWith_string_append _ _

lemma textLabel_mem (u t : ℚ) : beginsWith "Mem: ".data (renderMem false u t).data = true := by
  rw [show renderMem false u t = "Mem: " ++ (fmt2 u ++ "/" ++ fmt2 t ++ " GB") from
    renderMem_eq false u t]
  exact beginsWith_string_append _ _

lemma textLabel_temp (v : ℚ) : beginsWith "Temp: ".data (renderTemp false v).data = true := by
  rw [show renderTemp false v = "Temp: " ++ (fmt2 v ++ "°C") from renderTemp_eq false v]
  exact beginsWith_string_append _ _

lemma data_renderCpu_icon (v : ℚ) :
    (renderCpu true v).data = '' :: (' ' :: ((fmt2 v).data ++ "%".data)) := by
  rw [show renderCpu true v = (ICONS.1 ++ " ") ++ (fmt2 v ++ "%") from renderCpu_eq true v,
    String.data_append, String.data_append]
  rfl

lemma data_renderMem_icon (u t : ℚ) :
    (renderMem true u t).data =
      '' :: (' ' :: ((fmt2 u ++ "/" ++ fmt2 t ++ " GB")).data) := by
  rw [show renderMem true u t = (ICONS.2.1 ++ " ") ++ (fmt2 u ++ "/" ++ fmt2 t ++ " GB") from
    renderMem_eq true u t, String.data_append]
  rfl

lemma data_renderTemp_icon (v : ℚ) :
    (renderTemp true v).data = '' :: (' ' :: ((fmt2 v ++ "°C")).data) := by
  rw [show renderTemp true v = (ICONS.2.2 ++ " ") ++ (fmt2 v ++ "°C") from renderTemp_eq true v,
    String.data_append]
  rfl

/-- The three textual label prefixes all fail on a string whose first
character is not 'C', 'M' or 'T'. -/
lemma noTextLabels (g : Char) (rest : List Char)
    (h1 : ('C' == g) = false) (h2 : ('M' == g) = false) (h3 : ('T' == g) = false) :
    beginsWith "CPU: ".data (g :: rest) = false ∧
    beginsWith "Mem: ".data (g :: rest) = false ∧
    beginsWith "Temp: ".data (g :: rest) = false := by
  refine ⟨?_, ?_, ?_⟩
  · rw [show "CPU: ".data = 'C' :: "PU: ".data from rfl]
    exact beginsWith_cons_false _ _ h1
  · rw [show "Mem: ".data = 'M' :: "em: ".data from rfl]
    exact beginsWith_cons_false _ _ h2
  · rw [show "Temp: ".data = 'T' :: "emp: ".data from rfl]
    exact beginsWith_cons_false _ _ h3

lemma noTextLabels_empty :
    beginsWith "CPU: ".data ("" : String).data = false ∧
    beginsWith "Mem: ".data ("" : String).data = false ∧
    beginsWith "Temp: ".data ("" : String).data = false := by
  refine ⟨?_, ?_, ?_⟩ <;> decide

/-- C4: with `use_icons = false` the three segments of the sampled string
start with the literal prefixes "CPU: ", "Mem: " and "Temp: " (the temperature
segment may still be empty); with `use_icons = true` none of the segments
starts with any of those text prefixes. -/
theorem segment_prefix_styles (intv : Nat) (icons : Bool) (envs : List Env) (e : Env) :
    ∃ s c m t, runSamples envs (init intv icons none) = some s ∧
      (get_sys_stats e (some s)).1 = Except.ok (c ++ " | " ++ m ++ " | " ++ t) ∧
      (if icons then
        (beginsWith "CPU: ".data c.data = false ∧ beginsWith "Mem: ".data c.data = false ∧
          beginsWith "Temp: ".data c.data = false) ∧
        (beginsWith "CPU: ".data m.data = false ∧ beginsWith "Mem: ".data m.data = false ∧
          beginsWith "Temp: ".data m.data = false) ∧
        (beginsWith "CPU: ".data t.data = false ∧ beginsWith "Mem: ".data t.data = false ∧
          beginsWith "Temp: ".data t.data = false)
      else
        beginsWith "CPU: ".data c.data = true ∧ beginsWith "Mem: ".data m.data = true ∧
          (t = "" ∨ beginsWith "Temp: ".data t.data = true)) := by
  obtain ⟨s2, hrun, hcfg, htemp⟩ :=
    runSamples_inv envs (SysMonState.new ⟨intv, icons⟩) (Or.inl rfl)
  refine ⟨s2, (update_all e s2).cpu, (update_all e s2).mem, (update_all e s2).temp,
    hrun, rfl, ?_⟩
  have huse : s2.config.use_icons = icons := by rw [hcfg]; rfl
  cases icons with
  | false =>
    show beginsWith "CPU: ".data (update_all e s2).cpu.data = true ∧
      beginsWith "Mem: ".data (update_all e s2).mem.data = true ∧
      ((update_all e s2).temp = "" ∨
        beginsWith "Temp: ".data (update_all e s2).temp.data = true)
    refine ⟨?_, ?_, ?_⟩
    · rw [update_all_cpu, huse]
      exact textLabel_cpu _
    · rw [update_all_mem, huse]
      exact textLabel_mem _ _
    · rw [update_all_temp, huse]
      cases hh : e.components.head? with
      | some v =>
        exact Or.inr (textLabel_temp v)
      | none =>
        rcases htemp with h | ⟨v, hv⟩
        · exact Or.inl h
        · rw [hv]
          exact Or.inr (textLabel_temp v)
  | true =>
    show (beginsWith "CPU: ".data (update_all e s2).cpu.data = false ∧
        beginsWith "Mem: ".data (update_all e s2).cpu.data = false ∧
        beginsWith "Temp: ".data (update_all e s2).cpu.data = false) ∧
      (beginsWith "CPU: ".data (update_all e s2).mem.data = false ∧
        beginsWith "Mem: ".data (update_all e s2).mem.data = false ∧
        beginsWith "Temp: ".data (update_all e s2).mem.data = false) ∧
      (beginsWith "CPU: ".data (update_all e s2).temp.data = false ∧
        beginsWith "Mem: ".data (update_all e s2).temp.data = false ∧
        beginsWith "Temp: ".data (update_all e s2).temp.data = false)
    refine ⟨?_, ?_, ?_⟩
    · rw [update_all_cpu, huse, data_renderCpu_icon]
      exact noTextLabels _ _ (by decide) (by decide) (by decide)
    · rw [update_all_mem, huse, data_renderMem_icon]
      exact noTextLabels _ _ (by decide) (by decide) (by decide)
    · rw [update_all_temp, huse]
      cases hh : e.components.head? with
      | some v =>
        show beginsWith "CPU: ".data (renderTemp true v).data = false ∧
          beginsWith "Mem: ".data (renderTemp true v).data = false ∧
          beginsWith "Temp: ".data (renderTemp true v).data = false
        rw [data_renderTemp_icon]
        exact noTextLabels _ _ (by decide) (by decide) (by decide)
      | none =>
        rcases htemp with h | ⟨v, hv⟩
        · rw [h]
          exact noTextLabels_empty
        · show beginsWith "CPU: ".data s2.temp.data = false ∧
            beginsWith "Mem: ".data s2.temp.data = false ∧
            beginsWith "Temp: ".data s2.temp.data = false
          rw [show s2.temp = renderTemp true v from hv, data_renderTemp_icon]
          exact noTextLabels _ _ (by decide) (by decide) (by decide)

/-- C8: `init` stores a fresh monitor built from the new configuration,
whatever the slot held before, so the very next `get_sys_stats` output is
fully determined by the new `use_icons` (and the readings), not by any prior
state. -/
theorem reinit_replaces_monitor (sl : Slot) (intv : Nat) (icons : Bool) (e : Env) :
    init intv icons sl = some (SysMonState.new ⟨intv, icons⟩) ∧
    (get_sys_stats e (init intv icons sl)).1 =
      Except.ok (renderCpu icons e.cpuUsage ++ " | " ++
        renderMem icons (e.usedMem / 1024) (e.totalMem / 1024) ++ " | " ++
        (match e.components.head? with
          | some v => renderTemp icons v
          | none => "")) := by
  refine ⟨rfl, ?_⟩
  show Except.ok ((update_all e (SysMonState.new ⟨intv, icons⟩)).cpu ++ " | " ++
    (update_all e (SysMonState.new ⟨intv, icons⟩)).mem ++ " | " ++
    (update_all e (SysMonState.new ⟨intv, icons⟩)).temp) = _
  rw [update_all_cpu, update_all_mem, update_all_temp]
  rfl

lemma step_interval (e : Env) (i1 i2 : Nat) (ic : Bool) (c m t : String) :
    (get_sys_stats e (some ⟨⟨i1, ic⟩, c, m, t⟩)).1 =
      (get_sys_stats e (some ⟨⟨i2, ic⟩, c, m, t⟩)).1 ∧
    ∃ c2 m2 t2, (get_sys_stats e (some ⟨⟨i1, ic⟩, c, m, t⟩)).2 = some ⟨⟨i1, ic⟩, c2, m2, t2⟩ ∧
      (get_sys_stats e (some ⟨⟨i2, ic⟩, c, m, t⟩)).2 = some ⟨⟨i2, ic⟩, c2, m2, t2⟩ := by
  have p1 : (update_all e (⟨⟨i1, ic⟩, c, m, t⟩ : SysMonState)).cpu = renderCpu ic e.cpuUsage :=
    update_all_cpu e _
  have q1 : (update_all e (⟨⟨i2, ic⟩, c, m, t⟩ : SysMonState)).cpu = renderCpu ic e.cpuUsage :=
    update_all_cpu e _
  have p2 : (update_all e (⟨⟨i1, ic⟩, c, m, t⟩ : SysMonState)).mem =
      renderMem ic (e.usedMem / 1024) (e.totalMem / 1024) := update_all_mem e _
  have q2 : (update_all e (⟨⟨i2, ic⟩, c, m, t⟩ : SysMonState)).mem =
      renderMem ic (e.usedMem / 1024) (e.totalMem / 1024) := update_all_mem e _
  have p3 : (update_all e (⟨⟨i1, ic⟩, c, m, t⟩ : SysMonState)).temp =
      match e.components.head? with
        | some v => renderTemp ic v
        | none => t := update_all_temp e _
  have q3 : (update_all e (⟨⟨i2, ic⟩, c, m, t⟩ : SysMonState)).temp =
      match e.components.head? with
        | some v => renderTemp ic v
        | none => t := update_all_temp e _
  refine ⟨?_, renderCpu ic e.cpuUsage, renderMem ic (e.usedMem / 1024) (e.totalMem / 1024),
    (match e.components.head? with
      | some v => renderTemp ic v
      | none => t), ?_, ?_⟩
  · rw [get_sys_stats_some, get_sys_stats_some, p1, q1, p2, q2, p3, q3]
  · show some (update_all e (⟨⟨i1, ic⟩, c, m, t⟩ : SysMonState)) = _
    rw [show update_all e (⟨⟨i1, ic⟩, c, m, t⟩ : SysMonState) =
      (⟨⟨i1, ic⟩, renderCpu ic e.cpuUsage, renderMem ic (e.usedMem / 1024) (e.totalMem / 1024),
        (match e.components.head? with
          | some v => renderTemp ic v
          | none => t)⟩ : SysMonState) from update_all_eq e _]
  · show some (update_all e (⟨⟨i2, ic⟩, c, m, t⟩ : SysMonState)) = _
    rw [show update_all e (⟨⟨i2, ic⟩, c, m, t⟩ : SysMonState) =
      (⟨⟨i2, ic⟩, renderCpu ic e.cpuUsage, renderMem ic (e.usedMem / 1024) (e.totalMem / 1024),
        (match e.components.head? with
          | some v => renderTemp ic v
          | none => t)⟩ : SysMonState) from update_all_eq e _]

lemma runOutputs_interval (envs : List Env) : ∀ (i1 i2 : Nat) (ic : Bool) (c m t : String),
    runOutputs envs (some ⟨⟨i1, ic⟩, c, m, t⟩) = runOutputs envs (some ⟨⟨i2, ic⟩, c, m, t⟩) := by
  induction envs with
  | nil => intros; rfl
  | cons e rest ih =>
    intro i1 i2 ic c m t
    obtain ⟨h1, c2, m2, t2, h2, h3⟩ := step_interval e i1 i2 ic c m t
    rw [runOutputs, runOutputs, h1, h2, h3, ih]

/-- C9: the `update_interval` argument of `init` never influences any
observable output: two runs that differ only in that argument produce
identical outputs for every subsequent `get_sys_stats` call. -/
theorem interval_no_influence (i1 i2 : Nat) (icons : Bool) (envs : List Env) (sl1 sl2 : Slot) :
    runOutputs envs (init i1 icons sl1) = runOutputs envs (init i2 icons sl2) :=
  runOutputs_interval envs i1 i2 icons "" "" ""

lemma runSamples_keep_temp (rs : List (ℚ × ℚ × ℚ)) : ∀ s : SysMonState,
    ∃ s2, runSamples (rs.map fun r => Env.mk r.1 r.2.1 r.2.2 []) (some s) = some s2 ∧
      s2.temp = s.temp ∧ s2.config = s.config := by
  induction rs with
  | nil => intro s; exact ⟨s, rfl, rfl, rfl⟩
  | cons r rest ih =>
    intro s
    obtain ⟨s2, h1, h2, h3⟩ := ih (update_all (Env.mk r.1 r.2.1 r.2.2 []) s)
    exact ⟨s2, h1, h2, h3⟩

/-- C10: if no thermal component has ever been detected since the monitor was
constructed, `tempText` is still the initial empty string and the sampled
string ends with the trailing separator " | " followed by nothing. -/
theorem temp_segment_empty_without_sensor (intv : Nat) (icons : Bool)
    (rs : List (ℚ × ℚ × ℚ)) (cv tv uv : ℚ) :
    ∃ s, runSamples (rs.map fun r => Env.mk r.1 r.2.1 r.2.2 [])
        (init intv icons none) = some s ∧
      s.temp = "" ∧
      (get_sys_stats (Env.mk cv tv uv []) (some s)).1 =
        Except.ok ((update_all (Env.mk cv tv uv []) s).cpu ++ " | " ++
          (update_all (Env.mk cv tv uv []) s).mem ++ " | ") := by
  obtain ⟨s2, h1, h2, h3⟩ := runSamples_keep_temp rs (SysMonState.new ⟨intv, icons⟩)
  refine ⟨s2, h1, h2, ?_⟩
  show Except.ok ((update_all (Env.mk cv tv uv []) s2).cpu ++ " | " ++
    (update_all (Env.mk cv tv uv []) s2).mem ++ " | " ++
    (update_all (Env.mk cv tv uv []) s2).temp) = _
  have ht : (update_all (Env.mk cv tv uv []) s2).temp = "" := h2
  rw [ht]
  simp

lemma fmt2_of_floor (q : ℚ) (n : Nat) (h : ⌊q * 100 + 1 / 2⌋ = (n : ℤ)) :
    fmt2 q = Nat.repr (n / 100) ++ "." ++
      String.mk [Nat.digitChar (n / 10 % 10), Nat.digitChar (n % 10)] := by
  rw [fmt2_eq, h, if_neg (not_lt.mpr (Int.natCast_nonneg n)), Int.natAbs_ofNat]
  simp

/-- C1: the memory refresh divides each reading by 1024 exactly once before
rendering it with a "GB" label.  At a total reading of 2097152 native units
and a used reading of 1048576, the code renders "Mem: 1024.00/2048.00 GB",
while dividing by 1024 twice — as the spec prescribes for gibibytes — would
render 1.00 and 2.00. -/
theorem mem_divides_once_not_twice :
    (update_mem_usage (Env.mk 0 2097152 1048576 [])
        (SysMonState.new (Config.mk 2000 false))).mem = "Mem: 1024.00/2048.00 GB" ∧
    fmt2 (1048576 / 1024 / 1024) = "1.00" ∧
    fmt2 (2097152 / 1024 / 1024) = "2.00" := by
  have h1 : fmt2 ((1048576 : ℚ) / 1024) = "1024.00" := by
    rw [fmt2_of_floor _ 102400 (by rw [Int.floor_eq_iff]; norm_num)]
    decide
  have h2 : fmt2 ((2097152 : ℚ) / 1024) = "2048.00" := by
    rw [fmt2_of_floor _ 204800 (by rw [Int.floor_eq_iff]; norm_num)]
    decide
  have h3 : fmt2 ((1048576 : ℚ) / 1024 / 1024) = "1.00" := by
    rw [fmt2_of_floor _ 100 (by rw [Int.floor_eq_iff]; norm_num)]
    decide
  have h4 : fmt2 ((2097152 : ℚ) / 1024 / 1024) = "2.00" := by
    rw [fmt2_of_floor _ 200 (by rw [Int.floor_eq_iff]; norm_num)]
    decide
  refine ⟨?_, h3, h4⟩
  show renderMem false ((1048576 : ℚ) / 1024) ((2097152 : ℚ) / 1024) = _
  rw [show renderMem false ((1048576 : ℚ) / 1024) ((2097152 : ℚ) / 1024) =
    "Mem: " ++ fmt2 ((1048576 : ℚ) / 1024) ++ "/" ++ fmt2 ((2097152 : ℚ) / 1024) ++ " GB"
    from rfl, h1, h2]
  decide
